import Mathlib

/-!
# QR2Paper — verification of the request pipeline of `src/app/app.py`

This file gives a shallow embedding, in Lean 4, of the single-module Flask
application `app/app.py` of the QR2Paper repository, and proves (or refutes)
the frozen specification claims about it.

The application code delegates to libraries (`urllib.parse`, `json`,
`reportlab`, `subprocess`); where the behaviour of a library call is part of
a claim, the relevant fragment of the library's documented semantics is
embedded as well:

* `urlsplit` models the scheme/netloc extraction of CPython's
  `urllib.parse.urlsplit` (as of CPython 3.10–3.12: WHATWG control/space
  stripping, tab/CR/LF removal, scheme-character validation and lowercasing,
  authority extraction up to `/?#`, and the raising bracket-mismatch check;
  CPython ≥ 3.11 additionally validates bracketed IPv6 hosts, which only
  affects inputs containing brackets and is not modelled).
* `pyJsonParse` / `dumpPrinter` model `json.loads` / `json.dump` with the
  default options (`ensure_ascii=True`, separators `", "` / `": "`, strict
  string scanning, acceptance of `NaN`/`Infinity`). One deviation: a lone
  UTF-16 surrogate written as a `\uXXXX` escape produces a lone-surrogate
  Python `str`, which a Lean `String` cannot represent; the model decodes it
  as U+FFFD. Truthiness of JSON numbers is approximated (only the printer
  name, a string, ever reaches a truthiness test in the claims).
* the `reportlab` canvas is modelled as a page/operation accumulator, and
  its byte serialisation abstractly as a header plus per-page `MediaBox`
  declarations (only page count, declared page size and the recorded drawing
  operations are relied upon).
-/

namespace QRTwoPaper

/-! ## Python `json` model — values -/

/-- A parsed Python JSON value (`json.loads` result). Numbers are kept as
their lexemes; no claim depends on numeric values. -/
inductive PyJson where
  | null : PyJson
  | bool (b : Bool) : PyJson
  | num (lexeme : String) : PyJson
  | str (s : String) : PyJson
  | arr (elems : List PyJson) : PyJson
  | obj (members : List (String × PyJson)) : PyJson

/-! ## Python `json` model — encoder (`json.dump`, default options) -/

/-- Lower-case hex digit for `m < 16`, as produced by CPython's
`ESCAPE_ASCII` replacement. -/
def hexDigitChar (m : Nat) : Char :=
  Char.ofNat (if m < 10 then 48 + m else 87 + m)

/-- The four hex digits of a `\uXXXX` escape for code unit `k < 0x10000`. -/
def uEscDigits (k : Nat) : List Char :=
  [hexDigitChar (k / 4096 % 16), hexDigitChar (k / 256 % 16),
   hexDigitChar (k / 16 % 16), hexDigitChar (k % 16)]

/-- `json.dump`'s escaping of one character with `ensure_ascii=True`:
`"` and `\` are backslash-escaped, the five named control characters use
their short escapes, printable ASCII is kept verbatim, and everything else
becomes `\uXXXX` escapes (a surrogate pair above U+FFFF). -/
def escChar (c : Char) : List Char :=
  if c = '"' then ['\\', '"']
  else if c = '\\' then ['\\', '\\']
  else if c = '\x08' then ['\\', 'b']
  else if c = '\x0c' then ['\\', 'f']
  else if c = '\n' then ['\\', 'n']
  else if c = '\r' then ['\\', 'r']
  else if c = '\t' then ['\\', 't']
  else if 0x20 ≤ c.toNat ∧ c.toNat ≤ 0x7E then [c]
  else if c.toNat < 0x10000 then '\\' :: 'u' :: uEscDigits c.toNat
  else ('\\' :: 'u' :: uEscDigits (0xD800 + (c.toNat - 0x10000) / 0x400)) ++
       ('\\' :: 'u' :: uEscDigits (0xDC00 + (c.toNat - 0x10000) % 0x400))

/-- `json.dump`'s serialisation of a string: quoted, characters escaped. -/
def escString (s : String) : List Char :=
  '"' :: (s.data.flatMap escChar) ++ ['"']

/-- The exact file content written by `save_printer_setting(name)`
(`app.py` lines 39–41): `json.dump({"printer": printer_name}, f)` with the
default separators. -/
def dumpPrinter (name : String) : String :=
  "\x7b\"printer\": " ++ String.mk (escString name) ++ "\x7d"

/-! ## Python `json` model — scanner (`json.loads`, default options) -/

/-- JSON whitespace skipped by the scanner (space, tab, LF, CR). -/
def jsonWs (c : Char) : Bool :=
  c = ' ' ∨ c = '\t' ∨ c = '\n' ∨ c = '\r'

/-- Skip JSON whitespace. -/
def skipWs (cs : List Char) : List Char :=
  cs.dropWhile jsonWs

/-- Value of one hex digit (both cases accepted, as in `py_scanstring`). -/
def hexVal (c : Char) : Option Nat :=
  if 48 ≤ c.toNat ∧ c.toNat ≤ 57 then some (c.toNat - 48)
  else if 97 ≤ c.toNat ∧ c.toNat ≤ 102 then some (c.toNat - 87)
  else if 65 ≤ c.toNat ∧ c.toNat ≤ 70 then some (c.toNat - 55)
  else none

/-- Value of a 4-hex-digit escape body. -/
def hex4 (a b c d : Char) : Option Nat := do
  let x ← hexVal a
  let y ← hexVal b
  let z ← hexVal c
  let w ← hexVal d
  pure (x * 4096 + y * 256 + z * 16 + w)

/-- Decode a `\uXXXX` escape whose four digit characters are `a b c d` and
whose remaining input is `r`. A high surrogate followed by a low-surrogate
escape is combined; a lone surrogate — representable in a Python `str` but
not in a Lean `String` — is modelled as U+FFFD. -/
def decEscapeU (a b c d : Char) (r : List Char) : Option (Char × List Char) :=
  match hex4 a b c d with
  | none => none
  | some k =>
    if 0xD800 ≤ k ∧ k ≤ 0xDBFF then
      match r with
      | '\\' :: 'u' :: a2 :: b2 :: c2 :: d2 :: r2 =>
        match hex4 a2 b2 c2 d2 with
        | some k2 =>
          if 0xDC00 ≤ k2 ∧ k2 ≤ 0xDFFF then
            some (Char.ofNat (0x10000 + (k - 0xD800) * 0x400 + (k2 - 0xDC00)), r2)
          else some ('�', r)
        | none => some ('�', r)
      | _ => some ('�', r)
    else if 0xDC00 ≤ k ∧ k ≤ 0xDFFF then some ('�', r)
    else some (Char.ofNat k, r)

/-- Decode one backslash escape (the backslash already consumed), returning
the decoded character and the remaining input. -/
def decEscape : List Char → Option (Char × List Char)
  | '"' :: r => some ('"', r)
  | '\\' :: r => some ('\\', r)
  | '/' :: r => some ('/', r)
  | 'b' :: r => some ('\x08', r)
  | 'f' :: r => some ('\x0c', r)
  | 'n' :: r => some ('\n', r)
  | 'r' :: r => some ('\r', r)
  | 't' :: r => some ('\t', r)
  | 'u' :: a :: b :: c :: d :: r => decEscapeU a b c d r
  | _ => none

/-- Scan a JSON string body (opening quote already consumed) in strict mode:
raw control characters below U+0020 are rejected, escapes decoded, scan ends
at the closing quote. Fuel bounds the number of decoded characters. -/
def scanStr : Nat → List Char → Option (List Char × List Char)
  | 0, _ => none
  | _ + 1, [] => none
  | fuel + 1, ch :: rest =>
    if ch = '"' then some ([], rest)
    else if ch = '\\' then
      match decEscape rest with
      | none => none
      | some (c, r) =>
        match scanStr fuel r with
        | none => none
        | some (s, r2) => some (c :: s, r2)
    else if ch.toNat < 0x20 then none
    else
      match scanStr fuel rest with
      | none => none
      | some (s, r2) => some (ch :: s, r2)

/-- Scan a JSON number: `-? (0 | [1-9][0-9]*) (\.[0-9]+)? ([eE][+-]?[0-9]+)?`,
returning its lexeme (CPython's `NUMBER_RE`). -/
def scanNumber (cs : List Char) : Option (PyJson × List Char) :=
  let sgncs1 : List Char × List Char :=
    match cs with
    | '-' :: r => (['-'], r)
    | _ => ([], cs)
  match sgncs1.2 with
  | [] => none
  | c :: r =>
    if c.isDigit then
      let ipr1 : List Char × List Char :=
        if c = '0' then ([c], r)
        else (c :: r.takeWhile Char.isDigit, r.dropWhile Char.isDigit)
      let fpr2 : List Char × List Char :=
        match ipr1.2 with
        | '.' :: rr =>
          let ds := rr.takeWhile Char.isDigit
          if ds = [] then ([], ipr1.2) else ('.' :: ds, rr.dropWhile Char.isDigit)
        | _ => ([], ipr1.2)
      let epr3 : List Char × List Char :=
        match fpr2.2 with
        | e :: rr =>
          if e = 'e' ∨ e = 'E' then
            let esrr2 : List Char × List Char :=
              match rr with
              | s :: rr3 => if s = '+' ∨ s = '-' then ([s], rr3) else ([], rr)
              | [] => ([], rr)
            let ds := esrr2.2.takeWhile Char.isDigit
            if ds = [] then ([], fpr2.2)
            else (e :: (esrr2.1 ++ ds), esrr2.2.dropWhile Char.isDigit)
          else ([], fpr2.2)
        | [] => ([], fpr2.2)
      some (.num (String.mk (sgncs1.1 ++ ipr1.1 ++ fpr2.1 ++ epr3.1)), epr3.2)
    else none

mutual

/-- Scan one JSON value starting at a non-whitespace position
(CPython's `_scan_once`); fuel bounds container nesting and member counts. -/
def parseVal : Nat → List Char → Option (PyJson × List Char)
  | 0, _ => none
  | fuel + 1, cs =>
    match cs with
    | '"' :: rest =>
      match scanStr (rest.length + 1) rest with
      | none => none
      | some (s, r) => some (.str (String.mk s), r)
    | '\x7b' :: rest => parseObjBody fuel true [] (skipWs rest)
    | '[' :: rest => parseArrBody fuel true [] (skipWs rest)
    | 't' :: 'r' :: 'u' :: 'e' :: r => some (.bool true, r)
    | 'f' :: 'a' :: 'l' :: 's' :: 'e' :: r => some (.bool false, r)
    | 'n' :: 'u' :: 'l' :: 'l' :: r => some (.null, r)
    | 'N' :: 'a' :: 'N' :: r => some (.num "NaN", r)
    | 'I' :: 'n' :: 'f' :: 'i' :: 'n' :: 'i' :: 't' :: 'y' :: r =>
      some (.num "Infinity", r)
    | '-' :: 'I' :: 'n' :: 'f' :: 'i' :: 'n' :: 'i' :: 't' :: 'y' :: r =>
      some (.num "-Infinity", r)
    | cs => scanNumber cs

/-- Scan an object body after `{` and whitespace. `first` is true before the
first member (so that `{}` is accepted but a trailing comma is not). -/
def parseObjBody : Nat → Bool → List (String × PyJson) → List Char →
    Option (PyJson × List Char)
  | 0, _, _, _ => none
  | fuel + 1, first, acc, cs =>
    match cs with
    | '\x7d' :: r => if first then some (.obj acc.reverse, r) else none
    | '"' :: rest =>
      match scanStr (rest.length + 1) rest with
      | none => none
      | some (key, r1) =>
        match skipWs r1 with
        | ':' :: r2 =>
          match parseVal fuel (skipWs r2) with
          | none => none
          | some (v, r3) =>
            match skipWs r3 with
            | '\x7d' :: r4 => some (.obj ((String.mk key, v) :: acc).reverse, r4)
            | ',' :: r4 => parseObjBody fuel false ((String.mk key, v) :: acc) (skipWs r4)
            | _ => none
        | _ => none
    | _ => none

/-- Scan an array body after `[` and whitespace. -/
def parseArrBody : Nat → Bool → List PyJson → List Char →
    Option (PyJson × List Char)
  | 0, _, _, _ => none
  | fuel + 1, first, acc, cs =>
    match cs with
    | ']' :: r => if first then some (.arr acc.reverse, r) else none
    | _ =>
      match parseVal fuel cs with
      | none => none
      | some (v, r1) =>
        match skipWs r1 with
        | ']' :: r2 => some (.arr (v :: acc).reverse, r2)
        | ',' :: r2 => parseArrBody fuel false (v :: acc) (skipWs r2)
        | _ => none

end

/-- `json.loads`: skip leading whitespace, scan one value, reject trailing
data. `none` models a raised `json.JSONDecodeError`. -/
def pyJsonParse (s : String) : Option PyJson :=
  let cs := skipWs s.data
  match parseVal (cs.length + 1) cs with
  | none => none
  | some (j, rest) => if skipWs rest = [] then some j else none

/-! ## Python exceptions and the printer-setting store -/

/-- The kinds of Python exception relevant to the pipeline. `runtimeError`
is the concrete class used by `send_to_printer` for a failed print command
(the spec's `PrintDispatchError`); `ippError` is `cups.IPPError`, matched
by name in the `/print` handler. -/
inductive ExcKind where
  | valueError | jsonDecodeError | attributeError | osError
  | runtimeError | typeError | ippError | otherError
deriving DecidableEq

/-- A Python exception: its class, its `str(e)` message, and the traceback
text that `traceback.format_exc()` would produce for it. -/
structure PyExc where
  kind : ExcKind
  msg : String
  trace : String

/-- Whether a modelled call raised. -/
def exceptRaises {α : Type} : Except PyExc α → Bool
  | .error _ => true
  | .ok _ => false

/-- `dict.get(key)` on the member list of a parsed JSON object: the last
binding wins (later duplicate keys overwrite earlier ones in the Python
`dict`), and a JSON `null` value is Python `None`, indistinguishable from
an absent key in the result of `data.get("printer")`. -/
def objGet (members : List (String × PyJson)) (key : String) : Option PyJson :=
  match members.reverse.find? (fun kv => kv.1 = key) with
  | some (_, .null) => none
  | some (_, v) => some v
  | none => none

/-- `load_printer_setting()` (`app.py` lines 31–36), as a function of the
settings-file state (`none` = file absent). `os.path.exists` false ⇒
returns `None`; otherwise `json.load` — a parse failure raises
`json.JSONDecodeError`, a non-object top-level value makes `data.get`
raise `AttributeError`; neither is caught here. -/
def load_printer_setting (file : Option String) : Except PyExc (Option PyJson) :=
  match file with
  | none => .ok none
  | some content =>
    match pyJsonParse content with
    | none => .error ⟨.jsonDecodeError, "Expecting value", "Traceback: json.decoder.JSONDecodeError"⟩
    | some (.obj members) => .ok (objGet members "printer")
    | some _ => .error ⟨.attributeError, "object has no attribute get", "Traceback: AttributeError"⟩

/-- `save_printer_setting(printer_name)` (`app.py` lines 39–41): overwrite
the settings file with `json.dump({"printer": printer_name}, f)`. -/
def save_printer_setting (printer_name : String) (_file : Option String) :
    Option String :=
  some (dumpPrinter printer_name)

/-- Python truthiness of the value held in the `printer` variable (the
result of `load_printer_setting()`), as used by `or` and `if not printer:`.
`None`, `False`, `""`, empty containers are falsy. Number truthiness is
approximated by the lexeme (a zero lexeme is falsy); no claim exercises a
numeric printer value. -/
def pyTruthyJ : Option PyJson → Bool
  | none => false
  | some .null => false
  | some (.bool b) => b
  | some (.str s) => !s.isEmpty
  | some (.num lex) => !(lex.data.all (fun c => c = '0' || c = '-' || c = '+' || c = '.'))
  | some (.arr l) => !l.isEmpty
  | some (.obj l) => !l.isEmpty

/-- The printer-name determination of `send_to_printer` (`app.py` lines
184–188): `printer = load_printer_setting() or os.getenv("PRINTER_NAME")`,
then `if not printer: printer = "autoprinter"`. -/
def resolvePrinter (loaded : Option PyJson) (envPrinter : Option String) :
    Option PyJson :=
  let printer := if pyTruthyJ loaded then loaded else envPrinter.map PyJson.str
  if pyTruthyJ printer then printer else some (.str "autoprinter")

/-! ## The encoder/scanner round trip -/

theorem hexVal_hexDigitChar (m : Nat) (h : m < 16) :
    hexVal (hexDigitChar m) = some m := by
  interval_cases m <;> rfl

theorem hex4_uEscDigits (k : Nat) (h : k < 65536) :
    hex4 (hexDigitChar (k / 4096 % 16)) (hexDigitChar (k / 256 % 16))
      (hexDigitChar (k / 16 % 16)) (hexDigitChar (k % 16)) = some k := by
  rw [hex4, hexVal_hexDigitChar _ (Nat.mod_lt _ (by norm_num)),
    hexVal_hexDigitChar _ (Nat.mod_lt _ (by norm_num)),
    hexVal_hexDigitChar _ (Nat.mod_lt _ (by norm_num)),
    hexVal_hexDigitChar _ (Nat.mod_lt _ (by norm_num))]
  exact congrArg some (by omega)

theorem decEscapeU_bmp (k : Nat) (hk : k < 65536) (hs : k < 0xD800 ∨ 0xDFFF < k)
    (r : List Char) :
    decEscapeU (hexDigitChar (k / 4096 % 16)) (hexDigitChar (k / 256 % 16))
      (hexDigitChar (k / 16 % 16)) (hexDigitChar (k % 16)) r
      = some (Char.ofNat k, r) := by
  rw [decEscapeU, hex4_uEscDigits k hk]
  simp only
  rw [if_neg (by omega), if_neg (by omega)]

theorem decEscapeU_astral (k : Nat) (hk1 : 0x10000 ≤ k) (hk2 : k < 0x110000)
    (T : List Char) :
    decEscapeU (hexDigitChar ((0xD800 + (k - 0x10000) / 0x400) / 4096 % 16))
      (hexDigitChar ((0xD800 + (k - 0x10000) / 0x400) / 256 % 16))
      (hexDigitChar ((0xD800 + (k - 0x10000) / 0x400) / 16 % 16))
      (hexDigitChar ((0xD800 + (k - 0x10000) / 0x400) % 16))
      ('\\' :: 'u' :: hexDigitChar ((0xDC00 + (k - 0x10000) % 0x400) / 4096 % 16) ::
        hexDigitChar ((0xDC00 + (k - 0x10000) % 0x400) / 256 % 16) ::
        hexDigitChar ((0xDC00 + (k - 0x10000) % 0x400) / 16 % 16) ::
        hexDigitChar ((0xDC00 + (k - 0x10000) % 0x400) % 16) :: T)
      = some (Char.ofNat k, T) := by
  have hhi : 0xD800 + (k - 0x10000) / 0x400 < 65536 := by omega
  have hlo : 0xDC00 + (k - 0x10000) % 0x400 < 65536 := by omega
  rw [decEscapeU, hex4_uEscDigits _ hhi]
  simp only
  rw [if_pos (by omega), hex4_uEscDigits _ hlo]
  simp only
  rw [if_pos (by omega)]
  have hck : 0x10000 + (0xD800 + (k - 0x10000) / 0x400 - 0xD800) * 0x400 +
      (0xDC00 + (k - 0x10000) % 0x400 - 0xDC00) = k := by omega
  rw [hck]

theorem decEscape_u (a b c d : Char) (r : List Char) :
    decEscape ('u' :: a :: b :: c :: d :: r) = decEscapeU a b c d r := rfl

theorem escChar_length_pos (c : Char) : 0 < (escChar c).length := by
  unfold escChar
  split_ifs <;> simp [uEscDigits]

theorem length_le_flatMap_escChar (l : List Char) :
    l.length ≤ (l.flatMap escChar).length := by
  induction l with
  | nil => simp
  | cons c l ih =>
    simp only [List.flatMap_cons, List.length_append, List.length_cons]
    have := escChar_length_pos c
    omega

set_option maxHeartbeats 2000000 in
theorem scanStr_escape (l : List Char) :
    ∀ (fuel : Nat) (rest : List Char), l.length < fuel →
      scanStr fuel (l.flatMap escChar ++ '"' :: rest) = some (l, rest) := by
  induction l with
  | nil =>
    intro fuel rest h
    obtain ⟨f, rfl⟩ : ∃ f, fuel = f + 1 := ⟨fuel - 1, by omega⟩
    simp [scanStr]
  | cons c l ih =>
    intro fuel rest h
    obtain ⟨f, rfl⟩ : ∃ f, fuel = f + 1 := ⟨fuel - 1, by omega⟩
    have hT : scanStr f (l.flatMap escChar ++ '"' :: rest) = some (l, rest) :=
      ih f rest (by simp at h; omega)
    have hv : c.toNat < 0xd800 ∨ (0xdfff < c.toNat ∧ c.toNat < 0x110000) := c.valid
    simp only [List.flatMap_cons, List.append_assoc]
    by_cases h1 : c = '"'
    · subst h1; simp [escChar, scanStr, decEscape, hT]
    by_cases h2 : c = '\\'
    · subst h2; simp [escChar, scanStr, decEscape, hT]
    by_cases h3 : c = '\x08'
    · subst h3; simp [escChar, scanStr, decEscape, hT]
    by_cases h4 : c = '\x0c'
    · subst h4; simp [escChar, scanStr, decEscape, hT]
    by_cases h5 : c = '\n'
    · subst h5; simp [escChar, scanStr, decEscape, hT]
    by_cases h6 : c = '\r'
    · subst h6; simp [escChar, scanStr, decEscape, hT]
    by_cases h7 : c = '\t'
    · subst h7; simp [escChar, scanStr, decEscape, hT]
    by_cases h8 : 0x20 ≤ c.toNat ∧ c.toNat ≤ 0x7E
    · simp only [escChar, if_neg h1, if_neg h2, if_neg h3, if_neg h4, if_neg h5,
        if_neg h6, if_neg h7, if_pos h8, List.cons_append, List.nil_append]
      rw [scanStr, if_neg h1, if_neg h2, if_neg (by omega : ¬ c.toNat < 0x20), hT]
    by_cases h9 : c.toNat < 0x10000
    · simp only [escChar, if_neg h1, if_neg h2, if_neg h3, if_neg h4, if_neg h5,
        if_neg h6, if_neg h7, if_neg h8, if_pos h9, uEscDigits,
        List.cons_append, List.nil_append]
      rw [scanStr, if_neg (show ¬ ('\\' : Char) = '"' by decide),
        if_pos (rfl : ('\\' : Char) = '\\')]
      rw [decEscape_u, decEscapeU_bmp c.toNat h9 (by omega), Char.ofNat_toNat]
      simp only
      rw [hT]
    · simp only [escChar, if_neg h1, if_neg h2, if_neg h3, if_neg h4, if_neg h5,
        if_neg h6, if_neg h7, if_neg h8, if_neg h9, uEscDigits,
        List.cons_append, List.nil_append]
      rw [scanStr, if_neg (show ¬ ('\\' : Char) = '"' by decide),
        if_pos (rfl : ('\\' : Char) = '\\')]
      rw [decEscape_u, decEscapeU_astral c.toNat (by omega) (by omega), Char.ofNat_toNat]
      simp only
      rw [hT]

theorem parseVal_quote (f : Nat) (rest : List Char) :
    parseVal (f + 1) ('"' :: rest) =
      match scanStr (rest.length + 1) rest with
      | none => none
      | some (s, r) => some (.str (String.mk s), r) := rfl

theorem parseVal_obrace (f : Nat) (rest : List Char) :
    parseVal (f + 1) ('\x7b' :: rest) = parseObjBody f true [] (skipWs rest) := rfl

theorem skipWs_obrace (r : List Char) : skipWs ('\x7b' :: r) = '\x7b' :: r := rfl

theorem skipWs_quote (r : List Char) : skipWs ('"' :: r) = '"' :: r := rfl

theorem skipWs_colon (r : List Char) : skipWs (':' :: r) = ':' :: r := rfl

theorem skipWs_space (r : List Char) : skipWs (' ' :: r) = skipWs r := rfl

theorem skipWs_cbrace (r : List Char) : skipWs ('\x7d' :: r) = '\x7d' :: r := rfl

theorem skipWs_nil : skipWs [] = [] := rfl

theorem parseObjBody_quote (f : Nat) (first : Bool) (acc : List (String × PyJson))
    (rest : List Char) :
    parseObjBody (f + 1) first acc ('"' :: rest) =
      match scanStr (rest.length + 1) rest with
      | none => none
      | some (key, r1) =>
        match skipWs r1 with
        | ':' :: r2 =>
          match parseVal f (skipWs r2) with
          | none => none
          | some (v, r3) =>
            match skipWs r3 with
            | '\x7d' :: r4 => some (.obj ((String.mk key, v) :: acc).reverse, r4)
            | ',' :: r4 => parseObjBody f false ((String.mk key, v) :: acc) (skipWs r4)
            | _ => none
        | _ => none
      := rfl

theorem parseVal_str (f : Nat) (l rest : List Char) :
    parseVal (f + 1) ('"' :: (l.flatMap escChar ++ '"' :: rest)) =
      some (.str (String.mk l), rest) := by
  rw [parseVal_quote,
    scanStr_escape l _ _ (by
      have := length_le_flatMap_escChar l
      simp only [List.length_append, List.length_cons]
      omega)]

theorem parseObjBody_printer (f : Nat) (hf : 0 < f) (n : String) (rest : List Char) :
    parseObjBody (f + 1) true []
      ('"' :: 'p' :: 'r' :: 'i' :: 'n' :: 't' :: 'e' :: 'r' :: '"' :: ':' :: ' ' :: '"' ::
        (n.data.flatMap escChar ++ '"' :: '\x7d' :: rest))
      = some (.obj [("printer", .str n)], rest) := by
  obtain ⟨g, rfl⟩ : ∃ g, f = g + 1 := ⟨f - 1, by omega⟩
  rw [parseObjBody_quote (g + 1)]
  have hk : scanStr (('p' :: 'r' :: 'i' :: 'n' :: 't' :: 'e' :: 'r' :: '"' :: ':' :: ' ' :: '"' ::
        (n.data.flatMap escChar ++ '"' :: '\x7d' :: rest)).length + 1)
      ('p' :: 'r' :: 'i' :: 'n' :: 't' :: 'e' :: 'r' :: '"' :: ':' :: ' ' :: '"' ::
        (n.data.flatMap escChar ++ '"' :: '\x7d' :: rest))
      = some ("printer".data,
          ':' :: ' ' :: '"' :: (n.data.flatMap escChar ++ '"' :: '\x7d' :: rest)) := by
    have he : "printer".data.flatMap escChar ++ '"' ::
        (':' :: ' ' :: '"' :: (n.data.flatMap escChar ++ '"' :: '\x7d' :: rest))
        = 'p' :: 'r' :: 'i' :: 'n' :: 't' :: 'e' :: 'r' :: '"' :: ':' :: ' ' :: '"' ::
          (n.data.flatMap escChar ++ '"' :: '\x7d' :: rest) := rfl
    rw [← he]
    exact scanStr_escape "printer".data _ _
      (Nat.lt_succ_of_le (le_trans (length_le_flatMap_escChar _) (by simp)))
  simp only [hk, skipWs_colon, skipWs_space, skipWs_quote]
  rw [parseVal_str]
  simp only [skipWs_cbrace]
  rfl

/-- `json.loads` inverts `json.dump` on the record written by
`save_printer_setting`: the file content round-trips for every printer
name. -/
theorem pyJsonParse_dumpPrinter (n : String) :
    pyJsonParse (dumpPrinter n) = some (.obj [("printer", .str n)]) := by
  have hdata : (dumpPrinter n).data
      = '\x7b' :: '"' :: 'p' :: 'r' :: 'i' :: 'n' :: 't' :: 'e' :: 'r' :: '"' :: ':' :: ' ' :: '"' ::
        (n.data.flatMap escChar ++ '"' :: '\x7d' :: []) := by
    rw [dumpPrinter, String.data_append, String.data_append]
    show ('\x7b' :: '"' :: 'p' :: 'r' :: 'i' :: 'n' :: 't' :: 'e' :: 'r' :: '"' :: ':' :: ' ' :: []) ++
      (('"' :: (n.data.flatMap escChar ++ ['"'])) ++ ['\x7d']) = _
    simp only [List.cons_append, List.nil_append, List.append_assoc]
  rw [pyJsonParse, hdata, skipWs_obrace]
  simp only [List.length_cons]
  rw [parseVal_obrace, skipWs_quote]
  rw [parseObjBody_printer _ (by simp) n []]
  rfl

/-! ## URL validation (`is_valid_url`, via `urllib.parse.urlsplit`) -/

/-- The characters allowed in a URI scheme after the first
(`urllib.parse.scheme_chars`). -/
def schemeChars : List Char :=
  "abcdefghijklmnopqrstuvwxyzABCDEFGHIJKLMNOPQRSTUVWXYZ0123456789+-.".data

/-- WHATWG C0-control-or-space characters stripped from both ends of a URL. -/
def isC0OrSpace (c : Char) : Bool := c.toNat ≤ 0x20

/-- Tab, CR and LF are removed from anywhere in the URL. -/
def isUnsafeUrlByte (c : Char) : Bool := c = '\t' ∨ c = '\r' ∨ c = '\n'

/-- The result of `urllib.parse.urlsplit` restricted to the fields
`is_valid_url` reads: the (lower-cased) scheme, the netloc (authority), and
the unsplit remainder. -/
structure UrlSplitResult where
  scheme : List Char
  netloc : List Char
  rest : List Char
deriving DecidableEq

/-- `urllib.parse.urlsplit`: strip C0-controls/spaces from both ends, drop
tab/CR/LF, split off a scheme when the text before the first `:` is a
non-empty ASCII-letter-led run of scheme characters (lower-casing it), and
take the netloc after `//` up to the first of `/?#`. `none` models the
`ValueError` raised on a `[`/`]` bracket mismatch in the netloc. -/
def urlsplit (l : List Char) : Option UrlSplitResult :=
  let l1 := ((l.dropWhile isC0OrSpace).reverse.dropWhile isC0OrSpace).reverse
  let l2 := l1.filter (fun c => !isUnsafeUrlByte c)
  let schemeRest : List Char × List Char :=
    if l2.contains ':' then
      let pre := l2.takeWhile (fun c => c ≠ ':')
      let post := (l2.dropWhile (fun c => c ≠ ':')).tail
      match pre with
      | [] => ([], l2)
      | c :: _ =>
        if c.isAlpha && pre.all (fun d => schemeChars.contains d) then
          (pre.map Char.toLower, post)
        else ([], l2)
    else ([], l2)
  match schemeRest.2 with
  | '/' :: '/' :: r =>
    let netloc := r.takeWhile (fun c => c ≠ '/' ∧ c ≠ '?' ∧ c ≠ '#')
    let rest := r.dropWhile (fun c => c ≠ '/' ∧ c ≠ '?' ∧ c ≠ '#')
    if (netloc.contains '[' && !netloc.contains ']') ||
       (netloc.contains ']' && !netloc.contains '[') then none
    else some ⟨schemeRest.1, netloc, rest⟩
  | r => some ⟨schemeRest.1, [], r⟩

/-- The `hostname` component that `urllib.parse` derives from a netloc: the
part after the last `@`, then up to `]` inside brackets or up to `:`
otherwise, lower-cased; an empty hostname is `None`. -/
def urlHostname (netloc : List Char) : Option (List Char) :=
  let hostinfo := (netloc.reverse.takeWhile (fun c => c ≠ '@')).reverse
  let hostname :=
    if hostinfo.contains '[' then
      ((hostinfo.dropWhile (fun c => c ≠ '[')).tail).takeWhile (fun c => c ≠ ']')
    else hostinfo.takeWhile (fun c => c ≠ ':')
  if hostname.isEmpty then none else some (hostname.map Char.toLower)

/-- `is_valid_url` (`app.py` lines 137–144): parse with `urlparse` and
require `result.scheme in ("http", "https") and bool(result.netloc)`;
any exception yields `False`. -/
def is_valid_url (url : String) : Bool :=
  match urlsplit url.data with
  | none => false
  | some r => (r.scheme == "http".data || r.scheme == "https".data) && !r.netloc.isEmpty

/-- Modelled from the spec's words (§4.1, §8): the text parses as a URI
whose scheme is exactly `http` or `https` and whose authority (netloc)
component is non-empty. -/
def specValidHttpUrlNetloc (url : String) : Bool :=
  match urlsplit url.data with
  | none => false
  | some r => (r.scheme == "http".data || r.scheme == "https".data) && !r.netloc.isEmpty

/-- Modelled from the claim's words: the text parses as a URI whose scheme
is exactly `http` or `https` and whose host component is non-empty. -/
def specValidHttpUrlHost (url : String) : Bool :=
  match urlsplit url.data with
  | none => false
  | some r => (r.scheme == "http".data || r.scheme == "https".data) &&
      (urlHostname r.netloc).isSome

/-! ## QR encoding and PDF composition (`generate_qr_code`, `create_pdf`) -/

/-- The QR image produced by the `qrcode` library: an opaque raster encoding
some payload, built with the box size and border that `generate_qr_code`
fixes. -/
structure QRImage where
  payload : String
  boxSize : Nat
  border : Nat
deriving DecidableEq

/-- `generate_qr_code(data)` (`app.py` lines 147–153): a QR code with
`box_size=10`, `border=4`, fit mode, encoding `data`. -/
def generate_qr_code (data : String) : QRImage := ⟨data, 10, 4⟩

/-- One recorded drawing operation of a `reportlab` canvas, as issued by
`create_pdf`. Coordinates are in points (1/72 inch), kept exact as
rationals. -/
inductive PdfOp where
  | drawImage (img : QRImage) (x y width height : ℚ)
  | setFont (font : String) (size : ℚ)
  | drawCentredString (x y : ℚ) (text : String)
deriving DecidableEq

/-- A finished PDF page: its declared media box (width × height in points)
and its drawing operations in order. -/
structure PdfPage where
  mediaBox : ℚ × ℚ
  ops : List PdfOp
deriving DecidableEq

/-- A `reportlab` canvas: current page size, operations of the page being
built, and the finished pages. -/
structure PdfCanvas where
  pagesize : ℚ × ℚ
  code : List PdfOp
  pages : List PdfPage

/-- A finished PDF document. -/
structure PdfDoc where
  pages : List PdfPage
deriving DecidableEq

/-- `reportlab.lib.units.mm`: one millimetre in points, 72 / 25.4. -/
def mm : ℚ := 72 / 25.4

/-- `canvas.Canvas(buf, pagesize=...)`. -/
def Canvas.new (pagesize : ℚ × ℚ) : PdfCanvas := ⟨pagesize, [], []⟩

/-- `c.drawImage(img, x, y, width=w, height=h)`: record the draw. -/
def PdfCanvas.drawImage (c : PdfCanvas) (img : QRImage) (x y w h : ℚ) : PdfCanvas :=
  { c with code := c.code ++ [.drawImage img x y w h] }

/-- `c.setFont(font, size)`. -/
def PdfCanvas.setFont (c : PdfCanvas) (font : String) (size : ℚ) : PdfCanvas :=
  { c with code := c.code ++ [.setFont font size] }

/-- `c.drawCentredString(x, y, text)`: draw `text` as one line centred on
the x-coordinate `x` (no wrapping or truncation). -/
def PdfCanvas.drawCentredString (c : PdfCanvas) (x y : ℚ) (text : String) : PdfCanvas :=
  { c with code := c.code ++ [.drawCentredString x y text] }

/-- `c.showPage()`: close the current page (with the canvas's page size as
its media box) and start a fresh one. -/
def PdfCanvas.showPage (c : PdfCanvas) : PdfCanvas :=
  { c with code := [], pages := c.pages ++ [⟨c.pagesize, c.code⟩] }

/-- `c.save()`: if drawing operations are pending, an implicit `showPage()`
first; then the document is serialised. -/
def PdfCanvas.save (c : PdfCanvas) : PdfDoc :=
  if c.code.isEmpty then ⟨c.pages⟩ else ⟨c.showPage.pages⟩

/-- Abstraction of `reportlab`'s PDF serialisation into the byte buffer:
the `%PDF` header, each page's declared `/MediaBox [0 0 w h]`, and the
end-of-file marker. Only non-emptiness and the declared page sizes are
relied upon. -/
def pdfRenderPage (p : PdfPage) : String :=
  "<</Type /Page /MediaBox [0 0 " ++ toString p.mediaBox.1 ++ " " ++
    toString p.mediaBox.2 ++ "] /Ops " ++ toString p.ops.length ++ ">>"

/-- The byte content of `buf.getvalue()` for a saved document. -/
def pdfRender (d : PdfDoc) : String :=
  "%PDF-1.3\n" ++ String.join (d.pages.map pdfRenderPage) ++ "\n%%EOF\n"

/-- `create_pdf(qr_img, description)` (`app.py` lines 156–168): a canvas of
page size `(200*mm, 250*mm)`; the QR image drawn at `(50, 400)` scaled to a
100×100 box; font `Helvetica` size 12; the description drawn as a centred
string at `(100, 380)`; one `showPage()`; `save()`. (The PNG re-encoding of
the image through `qr_buf`/`ImageReader` is byte plumbing that hands the
same image to `drawImage` and is not modelled separately.) -/
def create_pdf (qr_img : QRImage) (description : String) : PdfDoc :=
  let c := Canvas.new (200 * mm, 250 * mm)
  let c := c.drawImage qr_img 50 400 100 100
  let c := c.setFont "Helvetica" 12
  let c := c.drawCentredString 100 380 description
  let c := c.showPage
  c.save

/-! ## Print dispatch (`send_to_printer`) -/

/-- The phase of the temp-file block at which an I/O failure occurs:
`f.write`, `f.flush`, or `os.fsync`. -/
inductive WPhase where
  | write | flush | fsync
deriving DecidableEq

/-- The environment of one dispatch: the settings-file contents, the
`PRINTER_NAME` environment variable, whether/where the temp-file block
fails, and the `lp` command's exit code and captured output. -/
structure DispatchEnv where
  settingsFile : Option String
  envPrinter : Option String
  writeFail : Option WPhase
  lpExit : Nat
  lpOut : String
  lpErr : String

/-- The externally observable events of `send_to_printer`, in order:
completed temp-file write/flush/fsync, the `stat` logging step, the 0.2s
sleep, and the invocation of the external print command with its full
argument vector. -/
inductive DispatchEv where
  | writeTemp (path : String) (bytes : String)
  | flushTemp
  | fsyncTemp
  | statTemp
  | sleepPause
  | invokeLp (cmd : List String)
deriving DecidableEq

/-- The fixed temporary document path of `send_to_printer`. -/
def pdfTempPath : String := "/tmp/qr_print.pdf"

/-- `send_to_printer(pdf_bytes)` (`app.py` lines 171–221) as a function of
the environment, returning the event trace and the outcome. Following the
source: determine the printer (`load_printer_setting() or
os.getenv("PRINTER_NAME")`, default `"autoprinter"`); write, flush and
fsync the bytes to the fixed temp path, re-raising any failure; log the
file's permissions; sleep; build `["lp", "-d", printer, path]`; run it with
`check=True`, re-raising a non-zero exit as
`RuntimeError(f"lp command failed: {e.stderr}")`. A `load_printer_setting`
exception propagates before anything is written; a truthy non-string
persisted value would make `subprocess.run` reject the argument vector
(`TypeError`) before spawning. The user-name logging of lines 172–181 has
no observable effect and is not modelled. -/
def send_to_printer (pdf_bytes : String) (env : DispatchEnv) :
    List DispatchEv × Except PyExc Unit :=
  match load_printer_setting env.settingsFile with
  | .error e => ([], .error e)
  | .ok v =>
    let printer := resolvePrinter v env.envPrinter
    match env.writeFail with
    | some .write => ([], .error ⟨.osError, "write failed", "Traceback: OSError"⟩)
    | some .flush => ([.writeTemp pdfTempPath pdf_bytes],
        .error ⟨.osError, "flush failed", "Traceback: OSError"⟩)
    | some .fsync => ([.writeTemp pdfTempPath pdf_bytes, .flushTemp],
        .error ⟨.osError, "fsync failed", "Traceback: OSError"⟩)
    | none =>
      let pre := [DispatchEv.writeTemp pdfTempPath pdf_bytes, .flushTemp, .fsyncTemp,
        .statTemp, .sleepPause]
      match printer with
      | some (.str p) =>
        let cmd := ["lp"] ++ (if p ≠ "" then ["-d", p] else []) ++ [pdfTempPath]
        if env.lpExit = 0 then (pre ++ [.invokeLp cmd], .ok ())
        else (pre ++ [.invokeLp cmd],
          .error ⟨.runtimeError, "lp command failed: " ++ env.lpErr,
            "Traceback: CalledProcessError"⟩)
      | _ => (pre, .error ⟨.typeError, "expected str, bytes or os.PathLike object",
          "Traceback: TypeError"⟩)

/-! ## The `/print` request handler (`print_url`) -/

/-- Python `str.strip()` whitespace (the Unicode whitespace set of CPython's
`str.isspace`). -/
def pyWhitespace (c : Char) : Bool :=
  ([0x09, 0x0A, 0x0B, 0x0C, 0x0D, 0x1C, 0x1D, 0x1E, 0x1F, 0x20, 0x85, 0xA0,
    0x1680, 0x2000, 0x2001, 0x2002, 0x2003, 0x2004, 0x2005, 0x2006, 0x2007,
    0x2008, 0x2009, 0x200A, 0x2028, 0x2029, 0x202F, 0x205F, 0x3000] :
    List Nat).contains c.toNat

/-- Python `str.strip()`. -/
def pyStrip (s : String) : String :=
  String.mk (((s.data.dropWhile pyWhitespace).reverse.dropWhile pyWhitespace).reverse)

/-- A handler response: a `redirect(location)` after `flash(message)`, or a
rendered template. -/
inductive Response where
  | redirect (location : String) (flashMsg : String)
  | page (template : String) (status : String)
deriving DecidableEq

/-- The environment of one `POST /print` request: the form fields, the
outcome of the two library calls the handler wraps in `try` blocks
(`generate_qr_code`, `create_pdf` — `none` means the call succeeds), and
the dispatch environment. -/
structure PrintEnv where
  formUrl : Option String
  formDesc : Option String
  qrFail : Option PyExc
  pdfFail : Option PyExc
  dispatch : DispatchEnv

/-- `print_url` (`app.py` lines 53–95): validate the form fields, generate
the QR code, compose the PDF, dispatch it; each stage failure flashes a
message and redirects to `/`; success renders `result.html`. Returns the
handler outcome (`.error` would mean an exception escaped the handler) and
the log lines (errors are logged as message plus traceback). -/
def print_url (env : PrintEnv) : Except PyExc Response × List String :=
  let url := pyStrip (env.formUrl.getD "")
  let desc := pyStrip (env.formDesc.getD "")
  let log0 := ["Received print request: url=" ++ url ++ ", desc=" ++ desc]
  if url = "" ∨ desc = "" then
    (.ok (.redirect "/" "Both URL and description are required."),
      log0 ++ ["Missing URL or description."])
  else if is_valid_url url = false then
    (.ok (.redirect "/"
        "Invalid URL provided. Please enter a valid URL starting with http:// or https://"),
      log0 ++ ["Invalid URL: " ++ url])
  else
    match env.qrFail with
    | some e =>
      (.ok (.redirect "/" "Failed to generate QR code. Please try again."),
        log0 ++ ["QR code generation failed: " ++ e.msg ++ "\n" ++ e.trace])
    | none =>
      let qr_img := generate_qr_code url
      match env.pdfFail with
      | some e =>
        (.ok (.redirect "/" "Failed to generate PDF. Please try again."),
          log0 ++ ["PDF generation failed: " ++ e.msg ++ "\n" ++ e.trace])
      | none =>
        let pdf_bytes := pdfRender (create_pdf qr_img desc)
        match (send_to_printer pdf_bytes env.dispatch).2 with
        | .error e =>
          if e.kind = .ippError then
            (.ok (.redirect "/"
                "Printer unreachable or CUPS error. Please check your printer connection."),
              log0 ++ ["Printer unreachable or CUPS error: " ++ e.msg ++ "\n" ++ e.trace])
          else
            (.ok (.redirect "/"
                ("Failed to send PDF to printer. Error: " ++ e.msg ++ ". Please try again.")),
              log0 ++ ["Print job failed: " ++ e.msg ++ "\n" ++ e.trace])
        | .ok _ =>
          (.ok (.page "result.html" "Printed successfully!"),
            log0 ++ ["Print job completed successfully."])

/-! ## The `/settings` handler (`printer_settings`) -/

/-- HTTP method of the settings request. -/
inductive HMethod where
  | get | post
deriving DecidableEq

/-- The environment of one `/settings` request: method, the two form
fields, the outcome of the CUPS printer listing, and the settings-file
contents. -/
structure SettingsEnv where
  method : HMethod
  formPrinter : Option String
  formManual : Option String
  cups : Except PyExc (List String)
  settingsFile : Option String

/-- What the settings handler produces: the settings-file state after the
request, and the rendered template's data. -/
structure SettingsOutcome where
  file : Option String
  printers : List String
  selected : Option PyJson
  message : Option String

/-- The pre-POST part of `printer_settings` (`app.py` lines 100–111): list
printers via CUPS, preselect the persisted or first printer; any exception
in the `try` block (including a `load_printer_setting` failure) becomes the
"CUPS connection error" message, keeping whatever was assigned before it
was raised. -/
def settingsBase (env : SettingsEnv) : List String × Option PyJson × Option String :=
  match env.cups with
  | .error e => ([], none, some ("CUPS connection error: " ++ e.msg))
  | .ok ps =>
    if ps.isEmpty then
      (ps, none, some "No printers found. Please check your CUPS setup.")
    else
      match load_printer_setting env.settingsFile with
      | .error e => (ps, none, some ("CUPS connection error: " ++ e.msg))
      | .ok v =>
        (ps, if pyTruthyJ v then v else some (.str (ps.headD "")), none)

/-- `printer_settings` (`app.py` lines 98–134): on POST, a non-empty
(stripped) `manual_printer` is saved directly (and appended to the
displayed list if new); otherwise a `printer` choice that is in the listed
set is saved; otherwise the message is "Invalid printer selection." and
nothing is saved. -/
def printer_settings (env : SettingsEnv) : SettingsOutcome :=
  let base := settingsBase env
  match env.method with
  | .get => ⟨env.settingsFile, base.1, base.2.1, base.2.2⟩
  | .post =>
    let chosen := env.formPrinter
    let manual := pyStrip (env.formManual.getD "")
    if manual ≠ "" then
      ⟨save_printer_setting manual env.settingsFile,
        if base.1.contains manual then base.1 else base.1 ++ [manual],
        some (.str manual),
        some ("Manual printer '" ++ manual ++ "' saved as default.")⟩
    else if (match chosen with
             | some c => base.1.contains c
             | none => false) then
      ⟨save_printer_setting (chosen.getD "") env.settingsFile,
        base.1, chosen.map PyJson.str,
        some ("Printer '" ++ chosen.getD "" ++ "' saved as default.")⟩
    else
      ⟨env.settingsFile, base.1, base.2.1, some "Invalid printer selection."⟩

/-! ## Claim theorems -/

/-- C3: for every printer name `n`, `save_printer_setting(n)` followed
immediately by `load_printer_setting()` returns `n` (the save/load round
trip holds for every string, e.g. `save("LaserJet1")` then `load()` returns
`"LaserJet1"`). -/
theorem save_load_roundtrip (n : String) (file : Option String) :
    load_printer_setting (save_printer_setting n file) = .ok (some (.str n)) := by
  show load_printer_setting (some (dumpPrinter n)) = .ok (some (.str n))
  simp [load_printer_setting, pyJsonParse_dumpPrinter, objGet]

/-- C7: for every QR image and every description, `create_pdf` yields a
non-empty byte sequence declaring exactly one page of exactly
200mm × 250mm, independent of the description's length. -/
theorem create_pdf_page_size (img : QRImage) (desc : String) :
    pdfRender (create_pdf img desc) ≠ "" ∧
    (create_pdf img desc).pages.map PdfPage.mediaBox = [(200 * mm, 250 * mm)] := by
  constructor
  · intro h
    have h2 := congrArg String.length h
    simp [pdfRender, String.length_append] at h2
    exact absurd h2.1.1 (by decide)
  · rfl

/-- Modelled from the claim's words (C8): every centred-string drawing
operation of the document is horizontally centred on its page, i.e. its
x-coordinate is half the declared page width. -/
def textCentredOnPage (d : PdfDoc) : Bool :=
  d.pages.all (fun p => p.ops.all (fun op =>
    match op with
    | .drawCentredString x _ _ => x = p.mediaBox.1 / 2
    | _ => true))

/-- C8 counterexample: for the concrete document of QR payload
`https://example.org` and description `Asset 42`, the description is drawn
by `drawCentredString(100, 380, …)` — centred on x = 100 points — while the
page's horizontal centre is 100mm = 36000/127 ≈ 283.46 points, so the text
is not horizontally centred on the page. -/
theorem create_pdf_not_page_centred :
    (create_pdf ⟨"https://example.org", 10, 4⟩ "Asset 42").pages.map PdfPage.ops =
      [[.drawImage ⟨"https://example.org", 10, 4⟩ 50 400 100 100,
        .setFont "Helvetica" 12, .drawCentredString 100 380 "Asset 42"]] ∧
    textCentredOnPage (create_pdf ⟨"https://example.org", 10, 4⟩ "Asset 42") = false := by
  constructor
  · rfl
  · simp only [textCentredOnPage]
    rw [show (create_pdf ⟨"https://example.org", 10, 4⟩ "Asset 42").pages =
      [⟨(200 * mm, 250 * mm),
        [.drawImage ⟨"https://example.org", 10, 4⟩ 50 400 100 100,
         .setFont "Helvetica" 12, .drawCentredString 100 380 "Asset 42"]⟩] from rfl]
    simp only [List.all_cons, List.all_nil, Bool.and_true,
      Bool.true_and, decide_eq_false_iff_not]
    intro hc
    rw [mm] at hc
    norm_num at hc

/-- C8 amended: `create_pdf` renders the description as a single
`drawCentredString` — one line, no wrapping or truncation — centred at the
fixed x-coordinate 100 points (the horizontal centre of the QR image's
50–150 box, not of the page), at the fixed y-offset 380, in the fixed font
Helvetica at the fixed size 12, for every description. -/
theorem create_pdf_ops (img : QRImage) (desc : String) :
    (create_pdf img desc).pages.map PdfPage.ops =
      [[.drawImage img 50 400 100 100, .setFont "Helvetica" 12,
        .drawCentredString 100 380 desc]] := rfl

/-- C2 counterexample: on a settings file that exists but holds the
unparseable content `{"printer": ` (a truncated record), `load_printer_setting`
raises (`json.JSONDecodeError` propagates) instead of returning an empty
result. -/
theorem load_corrupt_raises :
    exceptRaises (load_printer_setting (some "\x7b\"printer\": ")) = true := by decide

/-- C2 amended: `load_printer_setting` returns an empty result when the
settings file is absent or was never written; but when the file exists and
its content does not parse as JSON (or parses to a non-object),
the exception propagates — the function raises rather than returning an
empty result. -/
theorem load_printer_setting_amended :
    load_printer_setting none = .ok none ∧
    (∀ s, pyJsonParse s = none → exceptRaises (load_printer_setting (some s)) = true) ∧
    (∀ s members, pyJsonParse s = some (.obj members) →
      load_printer_setting (some s) = .ok (objGet members "printer")) := by
  refine ⟨rfl, ?_, ?_⟩
  · intro s h
    simp [load_printer_setting, h, exceptRaises]
  · intro s members h
    simp [load_printer_setting, h]

/-- C2 amended witness at concrete inputs. -/
theorem load_printer_setting_amended_witness :
    exceptRaises (load_printer_setting (some "not json")) = true :=
  load_printer_setting_amended.2.1 "not json" rfl

/-- C1 counterexample: the code accepts `http://@`, whose netloc `@` is
non-empty but whose host component is empty (`urlparse("http://@").hostname`
is `None`), so `is_valid_url` is not equivalent to "scheme is http/https
and the host component is non-empty". -/
theorem is_valid_url_host_counterexample :
    is_valid_url "http://@" = true ∧ specValidHttpUrlHost "http://@" = false := by
  constructor <;> decide

/-- C1 amended: `is_valid_url(s)` returns true iff `s` parses as a URI
whose scheme is exactly `http` or `https` and whose authority (netloc)
component — not its host component — is non-empty; in particular it returns
false whenever parsing raises or the scheme is not http/https (so for every
string missing an `http://`/`https://` scheme), and it returns false on
`ftp://example.com` and on `http://` (empty authority). -/
theorem is_valid_url_spec :
    (∀ s, is_valid_url s = specValidHttpUrlNetloc s) ∧
    (∀ s, urlsplit s.data = none → is_valid_url s = false) ∧
    (∀ s r, urlsplit s.data = some r → r.scheme ≠ "http".data →
      r.scheme ≠ "https".data → is_valid_url s = false) ∧
    is_valid_url "ftp://example.com" = false ∧
    is_valid_url "http://" = false := by
  refine ⟨fun s => rfl, ?_, ?_, by decide, by decide⟩
  · intro s h
    simp [is_valid_url, h]
  · intro s r h h1 h2
    simp [is_valid_url, h, beq_iff_eq, h1, h2]

/-- C1 amended witness: a concrete scheme-less and a concrete
wrong-scheme input are rejected. -/
theorem is_valid_url_spec_witness :
    is_valid_url "mailto:someone@example.com" = false :=
  is_valid_url_spec.2.2.1 "mailto:someone@example.com"
    ⟨"mailto".data, [], "someone@example.com".data⟩ (by decide) (by decide) (by decide)

/-- C4 counterexample: a persisted PrinterSetting exists — the settings
file holds `{"printer": ""}` and `load_printer_setting` returns its value
`""` — yet the target printer is the environment variable's value, not the
persisted one: Python's `or` treats the empty string as falsy. -/
theorem resolve_printer_counterexample :
    load_printer_setting (some (dumpPrinter "")) = .ok (some (.str "")) ∧
    resolvePrinter (some (.str "")) (some "officejet") = some (.str "officejet") ∧
    (some (PyJson.str "officejet") : Option PyJson) ≠ some (.str "") := by
  refine ⟨rfl, rfl, ?_⟩
  simp

/-- C4 amended: in `send_to_printer` the target printer name is the
persisted PrinterSetting value when one exists and is non-empty; otherwise
the environment variable `PRINTER_NAME` when set and non-empty; otherwise
the literal `"autoprinter"` — and the resolved name is what the invoked
`lp` command's `-d` argument carries. -/
theorem target_printer_selection :
    (∀ (v : Option PyJson) (e : Option String),
      (∀ s, v = some (.str s) → s ≠ "" → resolvePrinter v e = some (.str s)) ∧
      ((v = none ∨ v = some .null ∨ v = some (.str "")) →
        ∀ s, e = some s → s ≠ "" → resolvePrinter v e = some (.str s)) ∧
      ((v = none ∨ v = some .null ∨ v = some (.str "")) → (e = none ∨ e = some "") →
        resolvePrinter v e = some (.str "autoprinter"))) ∧
    (∀ (bytes : String) (env : DispatchEnv) (v : Option PyJson) (p : String),
      load_printer_setting env.settingsFile = .ok v → env.writeFail = none →
      resolvePrinter v env.envPrinter = some (.str p) → p ≠ "" →
      DispatchEv.invokeLp (["lp", "-d", p, pdfTempPath]) ∈ (send_to_printer bytes env).1) := by
  constructor
  · intro v e
    refine ⟨?_, ?_, ?_⟩
    · rintro s rfl hs
      have hse : s.isEmpty = false := by
        rw [Bool.eq_false_iff]
        simpa [String.isEmpty_iff] using hs
      simp [resolvePrinter, pyTruthyJ, hse]
    · rintro (rfl | rfl | rfl) s rfl hs <;>
      · have hse : s.isEmpty = false := by
          rw [Bool.eq_false_iff]
          simpa [String.isEmpty_iff] using hs
        simp +decide [resolvePrinter, pyTruthyJ, hse]
    · rintro (rfl | rfl | rfl) (rfl | rfl) <;> rfl
  · intro bytes env v p hl hw hres hp
    by_cases hz : env.lpExit = 0 <;>
      simp [send_to_printer, hl, hw, hres, hp, hz]

/-- C4 amended witness: an empty persisted value falls through to a
non-empty environment value; with neither, the fallback literal is used. -/
theorem target_printer_selection_witness :
    resolvePrinter (some (.str "")) (some "officejet") = some (.str "officejet") ∧
    resolvePrinter none none = some (.str "autoprinter") :=
  ⟨(target_printer_selection.1 (some (.str "")) (some "officejet")).2.1
      (by simp) "officejet" rfl (by decide),
   (target_printer_selection.1 none none).2.2 (by simp) (by simp)⟩

/-- C5: the document bytes are written to the fixed temporary path, flushed
and fsynced — in that order, strictly before the print command can be
invoked (the trace starts with write/flush/fsync/stat/sleep and anything
after is an `lp` invocation) — and when writing, flushing or syncing fails
the dispatch raises and the print command is never invoked. -/
theorem dispatch_write_before_invoke (bytes : String) (env : DispatchEnv) :
    (env.writeFail ≠ none →
      exceptRaises (send_to_printer bytes env).2 = true ∧
      ∀ cmd, DispatchEv.invokeLp cmd ∉ (send_to_printer bytes env).1) ∧
    (env.writeFail = none →
      ∀ v, load_printer_setting env.settingsFile = .ok v →
      ∃ tail, (send_to_printer bytes env).1 =
        [DispatchEv.writeTemp pdfTempPath bytes, .flushTemp, .fsyncTemp, .statTemp,
          .sleepPause] ++ tail ∧
        ∀ ev ∈ tail, ∃ cmd, ev = DispatchEv.invokeLp cmd) := by
  constructor
  · intro hw
    cases hl : load_printer_setting env.settingsFile with
    | error e => simp [send_to_printer, hl, exceptRaises]
    | ok v =>
      cases hwf : env.writeFail with
      | none => exact absurd hwf hw
      | some ph =>
        cases ph <;> simp [send_to_printer, hl, hwf, exceptRaises]
  · intro hw v hl
    cases hres : resolvePrinter v env.envPrinter with
    | none =>
      exact ⟨[], by simp [send_to_printer, hl, hw, hres], by simp⟩
    | some j =>
      cases j with
      | str p =>
        by_cases hz : env.lpExit = 0
        · refine ⟨[.invokeLp (["lp"] ++ (if p ≠ "" then ["-d", p] else []) ++ [pdfTempPath])],
            by simp [send_to_printer, hl, hw, hres, hz], ?_⟩
          intro ev hev
          simp at hev
          exact ⟨_, hev⟩
        · refine ⟨[.invokeLp (["lp"] ++ (if p ≠ "" then ["-d", p] else []) ++ [pdfTempPath])],
            by simp [send_to_printer, hl, hw, hres, hz], ?_⟩
          intro ev hev
          simp at hev
          exact ⟨_, hev⟩
      | null => exact ⟨[], by simp [send_to_printer, hl, hw, hres], by simp⟩
      | bool b => exact ⟨[], by simp [send_to_printer, hl, hw, hres], by simp⟩
      | num lex => exact ⟨[], by simp [send_to_printer, hl, hw, hres], by simp⟩
      | arr elems => exact ⟨[], by simp [send_to_printer, hl, hw, hres], by simp⟩
      | obj members => exact ⟨[], by simp [send_to_printer, hl, hw, hres], by simp⟩

/-- C5 witness: with an fsync failure the dispatch raises and no `lp`
invocation appears in the trace; with no failure the trace starts with
write, flush, fsync. -/
theorem dispatch_write_before_invoke_witness :
    (exceptRaises (send_to_printer "PDFBYTES"
        ⟨none, none, some .fsync, 0, "", ""⟩).2 = true ∧
      DispatchEv.invokeLp ["lp", "-d", "autoprinter", pdfTempPath] ∉
        (send_to_printer "PDFBYTES" ⟨none, none, some .fsync, 0, "", ""⟩).1) ∧
    (∃ tail, (send_to_printer "PDFBYTES" ⟨none, none, none, 0, "", ""⟩).1 =
      [DispatchEv.writeTemp pdfTempPath "PDFBYTES", .flushTemp, .fsyncTemp, .statTemp,
        .sleepPause] ++ tail ∧
      ∀ ev ∈ tail, ∃ cmd, ev = DispatchEv.invokeLp cmd) :=
  ⟨⟨((dispatch_write_before_invoke "PDFBYTES" ⟨none, none, some .fsync, 0, "", ""⟩).1
      (by simp)).1,
    ((dispatch_write_before_invoke "PDFBYTES" ⟨none, none, some .fsync, 0, "", ""⟩).1
      (by simp)).2 _⟩,
   (dispatch_write_before_invoke "PDFBYTES" ⟨none, none, none, 0, "", ""⟩).2 rfl none rfl⟩

/-- C6: with the temp file written, a non-zero exit of the external print
command makes `send_to_printer` raise a `RuntimeError` (the realisation of
the spec's `PrintDispatchError`) whose message contains the command's
stderr text; a zero exit returns without raising. -/
theorem dispatch_lp_exit (bytes : String) (env : DispatchEnv) (v : Option PyJson)
    (p : String)
    (hl : load_printer_setting env.settingsFile = .ok v)
    (hw : env.writeFail = none)
    (hres : resolvePrinter v env.envPrinter = some (.str p)) :
    (env.lpExit ≠ 0 →
      (send_to_printer bytes env).2 =
        .error ⟨.runtimeError, "lp command failed: " ++ env.lpErr,
          "Traceback: CalledProcessError"⟩ ∧
      ∃ pre post, "lp command failed: " ++ env.lpErr = pre ++ env.lpErr ++ post) ∧
    (env.lpExit = 0 → (send_to_printer bytes env).2 = .ok ()) := by
  constructor
  · intro hz
    exact ⟨by simp [send_to_printer, hl, hw, hres, hz],
      ⟨"lp command failed: ", "", by simp⟩⟩
  · intro hz
    simp [send_to_printer, hl, hw, hres, hz]

/-- C6 witness: exit code 1 with stderr `printer offline` raises an error
whose message carries that text; exit code 0 returns without raising. -/
theorem dispatch_lp_exit_witness :
    (send_to_printer "PDFBYTES" ⟨none, none, none, 1, "", "printer offline"⟩).2 =
      .error ⟨.runtimeError, "lp command failed: printer offline",
        "Traceback: CalledProcessError"⟩ ∧
    (send_to_printer "PDFBYTES" ⟨none, none, none, 0, "", ""⟩).2 = .ok () :=
  ⟨((dispatch_lp_exit "PDFBYTES" ⟨none, none, none, 1, "", "printer offline"⟩
        none "autoprinter" rfl rfl rfl).1 (by decide)).1,
   (dispatch_lp_exit "PDFBYTES" ⟨none, none, none, 0, "", ""⟩
        none "autoprinter" rfl rfl rfl).2 rfl⟩

/-- C10: on a POST `/settings` request with an (after stripping) empty
`manual_printer` and a `printer` field that is not in the listed printer
set, the persisted setting is left unchanged and the response reports
"Invalid printer selection."; a non-empty (stripped) `manual_printer` is
persisted regardless of the `printer` field's value. -/
theorem settings_post_validation (env : SettingsEnv) (h : env.method = .post) :
    (pyStrip (env.formManual.getD "") = "" →
      (∀ c, env.formPrinter = some c → c ∉ (settingsBase env).1) →
      (printer_settings env).file = env.settingsFile ∧
      (printer_settings env).message = some "Invalid printer selection.") ∧
    (pyStrip (env.formManual.getD "") ≠ "" →
      (printer_settings env).file =
        some (dumpPrinter (pyStrip (env.formManual.getD "")))) := by
  constructor
  · intro hm hc
    cases hcp : env.formPrinter with
    | none => constructor <;> simp [printer_settings, h, hm, hcp]
    | some c =>
      have hnc : c ∉ (settingsBase env).1 := hc c hcp
      constructor <;> simp [printer_settings, h, hm, hcp, hnc]
  · intro hm
    simp [printer_settings, h, hm, save_printer_setting]

/-- C10 witness: with manual_printer empty and printer `B` not among the
listed `["A"]`, the stored file is untouched and the message is the
invalid-selection report; with manual_printer `" HP-Laser "` the stripped
name is persisted although printer `B` is still invalid. -/
theorem settings_post_validation_witness :
    ((printer_settings ⟨.post, some "B", some "", .ok ["A"], none⟩).file = none ∧
     (printer_settings ⟨.post, some "B", some "", .ok ["A"], none⟩).message =
       some "Invalid printer selection.") ∧
    (printer_settings ⟨.post, some "B", some " HP-Laser ", .ok ["A"], none⟩).file =
      some (dumpPrinter "HP-Laser") :=
  ⟨(settings_post_validation ⟨.post, some "B", some "", .ok ["A"], none⟩ rfl).1
      rfl (by
        intro c hcp
        obtain rfl : "B" = c := Option.some.inj hcp
        decide),
   (settings_post_validation ⟨.post, some "B", some " HP-Laser ", .ok ["A"], none⟩ rfl).2
      (by decide)⟩

/-! ### Region lemmas for the `/print` handler -/

theorem print_url_missing_fields (env : PrintEnv)
    (hv : pyStrip (env.formUrl.getD "") = "" ∨ pyStrip (env.formDesc.getD "") = "") :
    (print_url env).1 = .ok (.redirect "/" "Both URL and description are required.") := by
  rcases hv with h | h <;> simp [print_url, h]

theorem print_url_invalid_url (env : PrintEnv)
    (hv : ¬ (pyStrip (env.formUrl.getD "") = "" ∨ pyStrip (env.formDesc.getD "") = ""))
    (hva : is_valid_url (pyStrip (env.formUrl.getD "")) = false) :
    (print_url env).1 = .ok (.redirect "/"
      "Invalid URL provided. Please enter a valid URL starting with http:// or https://") := by
  obtain ⟨h1, h2⟩ := not_or.mp hv
  simp [print_url, h1, h2, hva]

theorem print_url_qr_failure (env : PrintEnv) (e : PyExc)
    (hv : ¬ (pyStrip (env.formUrl.getD "") = "" ∨ pyStrip (env.formDesc.getD "") = ""))
    (hva : is_valid_url (pyStrip (env.formUrl.getD "")) = true)
    (hq : env.qrFail = some e) :
    print_url env =
      (.ok (.redirect "/" "Failed to generate QR code. Please try again."),
       ["Received print request: url=" ++ pyStrip (env.formUrl.getD "") ++
          ", desc=" ++ pyStrip (env.formDesc.getD ""),
        "QR code generation failed: " ++ e.msg ++ "\n" ++ e.trace]) := by
  obtain ⟨h1, h2⟩ := not_or.mp hv
  simp [print_url, h1, h2, hva, hq]

theorem print_url_pdf_failure (env : PrintEnv) (e : PyExc)
    (hv : ¬ (pyStrip (env.formUrl.getD "") = "" ∨ pyStrip (env.formDesc.getD "") = ""))
    (hva : is_valid_url (pyStrip (env.formUrl.getD "")) = true)
    (hq : env.qrFail = none) (hp : env.pdfFail = some e) :
    print_url env =
      (.ok (.redirect "/" "Failed to generate PDF. Please try again."),
       ["Received print request: url=" ++ pyStrip (env.formUrl.getD "") ++
          ", desc=" ++ pyStrip (env.formDesc.getD ""),
        "PDF generation failed: " ++ e.msg ++ "\n" ++ e.trace]) := by
  obtain ⟨h1, h2⟩ := not_or.mp hv
  simp [print_url, h1, h2, hva, hq, hp]

theorem print_url_dispatch_failure (env : PrintEnv) (e : PyExc)
    (hv : ¬ (pyStrip (env.formUrl.getD "") = "" ∨ pyStrip (env.formDesc.getD "") = ""))
    (hva : is_valid_url (pyStrip (env.formUrl.getD "")) = true)
    (hq : env.qrFail = none) (hp : env.pdfFail = none)
    (hs : (send_to_printer (pdfRender (create_pdf
        (generate_qr_code (pyStrip (env.formUrl.getD "")))
        (pyStrip (env.formDesc.getD "")))) env.dispatch).2 = .error e) :
    (print_url env).1 = .ok (.redirect "/"
      (if e.kind = .ippError then
        "Printer unreachable or CUPS error. Please check your printer connection."
      else "Failed to send PDF to printer. Error: " ++ e.msg ++ ". Please try again.")) := by
  obtain ⟨h1, h2⟩ := not_or.mp hv
  by_cases hk : e.kind = .ippError <;>
    simp [print_url, h1, h2, hva, hq, hp, hs, hk]

theorem print_url_success_region (env : PrintEnv)
    (hv : ¬ (pyStrip (env.formUrl.getD "") = "" ∨ pyStrip (env.formDesc.getD "") = ""))
    (hva : is_valid_url (pyStrip (env.formUrl.getD "")) = true)
    (hq : env.qrFail = none) (hp : env.pdfFail = none)
    (hs : (send_to_printer (pdfRender (create_pdf
        (generate_qr_code (pyStrip (env.formUrl.getD "")))
        (pyStrip (env.formDesc.getD "")))) env.dispatch).2 = .ok ()) :
    (print_url env).1 = .ok (.page "result.html" "Printed successfully!") := by
  obtain ⟨h1, h2⟩ := not_or.mp hv
  simp [print_url, h1, h2, hva, hq, hp, hs]

/-- Replace an exception's traceback text, keeping its class and message. -/
def retraceExc (t : String) (e : PyExc) : PyExc := ⟨e.kind, e.msg, t⟩

/-- The same `/print` request environment with every library-exception
traceback replaced by `t`. -/
def retraceEnv (env : PrintEnv) (t : String) : PrintEnv :=
  { env with qrFail := env.qrFail.map (retraceExc t),
             pdfFail := env.pdfFail.map (retraceExc t) }

theorem print_url_shape (env : PrintEnv) :
    (∃ m, (print_url env).1 = .ok (.redirect "/" m)) ∨
    (print_url env).1 = .ok (.page "result.html" "Printed successfully!") := by
  by_cases hv : pyStrip (env.formUrl.getD "") = "" ∨ pyStrip (env.formDesc.getD "") = ""
  · exact .inl ⟨_, print_url_missing_fields env hv⟩
  by_cases hva : is_valid_url (pyStrip (env.formUrl.getD "")) = true
  case neg =>
    have hva2 : is_valid_url (pyStrip (env.formUrl.getD "")) = false := by
      cases hb : is_valid_url (pyStrip (env.formUrl.getD "")) with
      | false => rfl
      | true => exact absurd hb hva
    exact .inl ⟨_, print_url_invalid_url env hv hva2⟩
  case pos =>
    cases hq : env.qrFail with
    | some e => exact .inl ⟨_, by rw [print_url_qr_failure env e hv hva hq]⟩
    | none =>
      cases hp : env.pdfFail with
      | some e => exact .inl ⟨_, by rw [print_url_pdf_failure env e hv hva hq hp]⟩
      | none =>
        cases hs : (send_to_printer (pdfRender (create_pdf
            (generate_qr_code (pyStrip (env.formUrl.getD "")))
            (pyStrip (env.formDesc.getD "")))) env.dispatch).2 with
        | error e => exact .inl ⟨_, print_url_dispatch_failure env e hv hva hq hp hs⟩
        | ok u =>
          cases u
          exact .inr (print_url_success_region env hv hva hq hp hs)

theorem print_url_page_inversion (env : PrintEnv)
    (h : (print_url env).1 = .ok (.page "result.html" "Printed successfully!")) :
    ¬ (pyStrip (env.formUrl.getD "") = "" ∨ pyStrip (env.formDesc.getD "") = "") ∧
    is_valid_url (pyStrip (env.formUrl.getD "")) = true ∧
    env.qrFail = none ∧ env.pdfFail = none ∧
    (send_to_printer (pdfRender (create_pdf
      (generate_qr_code (pyStrip (env.formUrl.getD "")))
      (pyStrip (env.formDesc.getD "")))) env.dispatch).2 = .ok () := by
  by_cases hv : pyStrip (env.formUrl.getD "") = "" ∨ pyStrip (env.formDesc.getD "") = ""
  · rw [print_url_missing_fields env hv] at h
    simp at h
  by_cases hva : is_valid_url (pyStrip (env.formUrl.getD "")) = true
  case neg =>
    have hva2 : is_valid_url (pyStrip (env.formUrl.getD "")) = false := by
      cases hb : is_valid_url (pyStrip (env.formUrl.getD "")) with
      | false => rfl
      | true => exact absurd hb hva
    rw [print_url_invalid_url env hv hva2] at h
    simp at h
  case pos =>
    cases hq : env.qrFail with
    | some e =>
      rw [print_url_qr_failure env e hv hva hq] at h
      simp at h
    | none =>
      cases hp : env.pdfFail with
      | some e =>
        rw [print_url_pdf_failure env e hv hva hq hp] at h
        simp at h
      | none =>
        cases hs : (send_to_printer (pdfRender (create_pdf
            (generate_qr_code (pyStrip (env.formUrl.getD "")))
            (pyStrip (env.formDesc.getD "")))) env.dispatch).2 with
        | error e =>
          rw [print_url_dispatch_failure env e hv hva hq hp hs] at h
          simp at h
        | ok u =>
          cases u
          exact ⟨hv, hva, rfl, rfl, rfl⟩

/-- C9: for every `POST /print` request — modelled over every form input
and every outcome of the QR, PDF and dispatch stages — the handler never
lets an exception escape; the response is always either a redirect back to
the form carrying a flash message or the `result.html` success page; each
stage failure (validation, QR encoding, PDF composition, print dispatch)
yields the redirect; success is rendered exactly when all stages succeed;
the client-visible response is invariant under changing the exceptions'
stack traces (traces reach only the server-side log); and a QR-stage
exception's trace is logged server-side. -/
theorem print_url_boundary (env : PrintEnv) :
    (∃ r, (print_url env).1 = .ok r) ∧
    ((∃ m, (print_url env).1 = .ok (.redirect "/" m)) ∨
      (print_url env).1 = .ok (.page "result.html" "Printed successfully!")) ∧
    (pyStrip (env.formUrl.getD "") = "" ∨ pyStrip (env.formDesc.getD "") = "" ∨
        is_valid_url (pyStrip (env.formUrl.getD "")) = false →
      ∃ m, (print_url env).1 = .ok (.redirect "/" m)) ∧
    (env.qrFail.isSome = true → ∃ m, (print_url env).1 = .ok (.redirect "/" m)) ∧
    (env.pdfFail.isSome = true → ∃ m, (print_url env).1 = .ok (.redirect "/" m)) ∧
    (exceptRaises (send_to_printer (pdfRender (create_pdf
        (generate_qr_code (pyStrip (env.formUrl.getD "")))
        (pyStrip (env.formDesc.getD "")))) env.dispatch).2 = true →
      ∃ m, (print_url env).1 = .ok (.redirect "/" m)) ∧
    (¬ (pyStrip (env.formUrl.getD "") = "" ∨ pyStrip (env.formDesc.getD "") = "") →
      is_valid_url (pyStrip (env.formUrl.getD "")) = true →
      env.qrFail = none → env.pdfFail = none →
      (send_to_printer (pdfRender (create_pdf
        (generate_qr_code (pyStrip (env.formUrl.getD "")))
        (pyStrip (env.formDesc.getD "")))) env.dispatch).2 = .ok () →
      (print_url env).1 = .ok (.page "result.html" "Printed successfully!")) ∧
    (∀ t, (print_url (retraceEnv env t)).1 = (print_url env).1) ∧
    (∀ e, env.qrFail = some e →
      ¬ (pyStrip (env.formUrl.getD "") = "" ∨ pyStrip (env.formDesc.getD "") = "") →
      is_valid_url (pyStrip (env.formUrl.getD "")) = true →
      ("QR code generation failed: " ++ e.msg ++ "\n" ++ e.trace) ∈ (print_url env).2) := by
  have hshape := print_url_shape env
  refine ⟨?_, hshape, ?_, ?_, ?_, ?_, ?_, ?_, ?_⟩
  · rcases hshape with ⟨m, hm⟩ | hpage
    · exact ⟨_, hm⟩
    · exact ⟨_, hpage⟩
  · intro hval
    rcases hshape with h | hpage
    · exact h
    · obtain ⟨hv, hva, -, -, -⟩ := print_url_page_inversion env hpage
      rcases hval with h1 | h2 | h3
      · exact absurd (Or.inl h1) hv
      · exact absurd (Or.inr h2) hv
      · rw [hva] at h3
        exact absurd h3 (by simp)
  · intro hq
    rcases hshape with h | hpage
    · exact h
    · obtain ⟨-, -, hq0, -, -⟩ := print_url_page_inversion env hpage
      rw [hq0] at hq
      exact absurd hq (by simp)
  · intro hp
    rcases hshape with h | hpage
    · exact h
    · obtain ⟨-, -, -, hp0, -⟩ := print_url_page_inversion env hpage
      rw [hp0] at hp
      exact absurd hp (by simp)
  · intro hs
    rcases hshape with h | hpage
    · exact h
    · obtain ⟨-, -, -, -, hs0⟩ := print_url_page_inversion env hpage
      rw [hs0] at hs
      exact absurd hs (by simp [exceptRaises])
  · intro hv hva hq hp hs
    exact print_url_success_region env hv hva hq hp hs
  · intro t
    have hfu : (retraceEnv env t).formUrl = env.formUrl := rfl
    have hfd : (retraceEnv env t).formDesc = env.formDesc := rfl
    have hdi : (retraceEnv env t).dispatch = env.dispatch := rfl
    by_cases hv : pyStrip (env.formUrl.getD "") = "" ∨ pyStrip (env.formDesc.getD "") = ""
    · rw [print_url_missing_fields env hv,
        print_url_missing_fields (retraceEnv env t) (by rw [hfu, hfd]; exact hv)]
    by_cases hva : is_valid_url (pyStrip (env.formUrl.getD "")) = true
    case neg =>
      have hva2 : is_valid_url (pyStrip (env.formUrl.getD "")) = false := by
        cases hb : is_valid_url (pyStrip (env.formUrl.getD "")) with
        | false => rfl
        | true => exact absurd hb hva
      rw [print_url_invalid_url env hv hva2,
        print_url_invalid_url (retraceEnv env t) (by rw [hfu, hfd]; exact hv)
          (by rw [hfu]; exact hva2)]
    case pos =>
      cases hq : env.qrFail with
      | some e =>
        have hq2 : (retraceEnv env t).qrFail = some (retraceExc t e) := by
          simp [retraceEnv, hq]
        rw [print_url_qr_failure env e hv hva hq,
          print_url_qr_failure (retraceEnv env t) (retraceExc t e)
            (by rw [hfu, hfd]; exact hv) (by rw [hfu]; exact hva) hq2]
      | none =>
        have hq2 : (retraceEnv env t).qrFail = none := by simp [retraceEnv, hq]
        cases hp : env.pdfFail with
        | some e =>
          have hp2 : (retraceEnv env t).pdfFail = some (retraceExc t e) := by
            simp [retraceEnv, hp]
          rw [print_url_pdf_failure env e hv hva hq hp,
            print_url_pdf_failure (retraceEnv env t) (retraceExc t e)
              (by rw [hfu, hfd]; exact hv) (by rw [hfu]; exact hva) hq2 hp2]
        | none =>
          have hp2 : (retraceEnv env t).pdfFail = none := by simp [retraceEnv, hp]
          cases hs : (send_to_printer (pdfRender (create_pdf
              (generate_qr_code (pyStrip (env.formUrl.getD "")))
              (pyStrip (env.formDesc.getD "")))) env.dispatch).2 with
          | error e =>
            rw [print_url_dispatch_failure env e hv hva hq hp hs,
              print_url_dispatch_failure (retraceEnv env t) e
                (by rw [hfu, hfd]; exact hv) (by rw [hfu]; exact hva) hq2 hp2
                (by rw [hfu, hfd, hdi]; exact hs)]
          | ok u =>
            cases u
            rw [print_url_success_region env hv hva hq hp hs,
              print_url_success_region (retraceEnv env t)
                (by rw [hfu, hfd]; exact hv) (by rw [hfu]; exact hva) hq2 hp2
                (by rw [hfu, hfd, hdi]; exact hs)]
  · intro e hq hv hva
    rw [print_url_qr_failure env e hv hva hq]
    simp

/-- C9 witness: a concrete request whose QR stage raises is answered with a
flash-message redirect; a concrete all-success request renders the success
page; and the client response of the failing request does not change when
the stack trace text is replaced. -/
theorem print_url_boundary_witness :
    (∃ m, (print_url ⟨some "http://example.org", some "Asset 42",
        some ⟨.otherError, "boom", "Traceback: boom"⟩, none,
        ⟨none, none, none, 0, "", ""⟩⟩).1 = .ok (.redirect "/" m)) ∧
    (print_url ⟨some "http://example.org", some "Asset 42", none, none,
        ⟨none, none, none, 0, "", ""⟩⟩).1 =
      .ok (.page "result.html" "Printed successfully!") ∧
    (print_url (retraceEnv ⟨some "http://example.org", some "Asset 42",
        some ⟨.otherError, "boom", "Traceback: boom"⟩, none,
        ⟨none, none, none, 0, "", ""⟩⟩ "OTHER TRACE")).1 =
      (print_url ⟨some "http://example.org", some "Asset 42",
        some ⟨.otherError, "boom", "Traceback: boom"⟩, none,
        ⟨none, none, none, 0, "", ""⟩⟩).1 :=
  ⟨(print_url_boundary ⟨some "http://example.org", some "Asset 42",
      some ⟨.otherError, "boom", "Traceback: boom"⟩, none,
      ⟨none, none, none, 0, "", ""⟩⟩).2.2.2.1 rfl,
   (print_url_boundary ⟨some "http://example.org", some "Asset 42", none, none,
      ⟨none, none, none, 0, "", ""⟩⟩).2.2.2.2.2.2.1
      (by decide) (by decide) rfl rfl rfl,
   (print_url_boundary ⟨some "http://example.org", some "Asset 42",
      some ⟨.otherError, "boom", "Traceback: boom"⟩, none,
      ⟨none, none, none, 0, "", ""⟩⟩).2.2.2.2.2.2.2.1 "OTHER TRACE"⟩

end QRTwoPaper
